import Mathlib

/-!
Verification of the check-in scheduling core of the nkt-easeme API.

Shallow embedding of:
  - `app/utils/time.py`        (timezone-safe arithmetic, clamping, humanizing)
  - `app/services/clock.py`    (scheduling policy)
  - `app/repositories/intervention_repo.py` (session lifecycle mutations)
  - `app/repositories/checkin_repo.py` and `app/services/checkin.py`
    (check-in orchestration)

A Python `datetime` is modelled as a wall-clock reading in integer
microseconds together with an optional timezone offset (in minutes from
UTC); `tz = none` is a naive datetime, `tz = some 0` is UTC-aware.
`dt + timedelta` adds to the wall clock and keeps the offset, exactly as in
Python.  Comparison and subtraction of aware datetimes act on the instant
`wall - 60000000 * offset`.  The ambient current time is passed explicitly
as a parameter where the Python code calls `utcnow()`.
-/

namespace EaseMe

/-- Microseconds in one second. -/
def microsPerSec : Int := 1000000

/-- Microseconds in one minute. -/
def microsPerMin : Int := 60000000

/-- Model of a Python `datetime`: a wall-clock reading in microseconds and an
optional UTC offset in minutes (`none` = naive). -/
structure DT where
  wall : Int
  tz : Option Int
  deriving Repr, DecidableEq

/-- The instant a datetime denotes, in UTC microseconds; a naive datetime is
read as UTC (offset 0), matching the `assume_utc=True` default of `ensure_aware`. -/
def DT.inst (d : DT) : Int := d.wall - microsPerMin * d.tz.getD 0

/-- Python `dt + timedelta(minutes=m)`: adds to the wall clock, keeps the
timezone (used by the raw repository-level `+ timedelta(minutes=...)`). -/
def tdAddMinutes (d : DT) (m : Int) : DT := { d with wall := d.wall + m * microsPerMin }

/-- Python `dt + timedelta(seconds=s)`. -/
def tdAddSeconds (d : DT) (s : Int) : DT := { d with wall := d.wall + s * microsPerSec }

/-- `utcnow()` from `app/utils/time.py`: the current instant, UTC-aware.  The
current time is the explicit parameter `now` (UTC microseconds). -/
def utcnow (now : Int) : DT := { wall := now, tz := some 0 }

/-- `ensure_aware(dt)` from `app/utils/time.py`, on the `assume_utc=True`
default used by every caller in the source: an aware datetime is converted to
UTC (`astimezone(UTC)` keeps the instant), a naive one is reinterpreted as UTC
(`replace(tzinfo=UTC)` keeps the wall clock). -/
def ensure_aware (d : DT) : DT :=
  match d.tz with
  | some o => { wall := d.wall - o * microsPerMin, tz := some 0 }
  | none => { d with tz := some 0 }

/-- `add_minutes(dt, minutes)` from `app/utils/time.py`:
`ensure_aware(dt) + timedelta(minutes=minutes)`. -/
def add_minutes (d : DT) (minutes : Int) : DT :=
  tdAddMinutes (ensure_aware d) minutes

/-- `coerce_interval_minutes(value, min_minutes=15, max_minutes=120)` from
`app/utils/time.py`. -/
def coerce_interval_minutes (value : Int) (min_minutes : Int := 15) (max_minutes : Int := 120) : Int :=
  if value < min_minutes then min_minutes
  else if value > max_minutes then max_minutes
  else value

/-- `is_past(when, now=None, grace_seconds=0)` from `app/utils/time.py`.
`now` is the keyword argument (`none` = defaulted to `utcnow()`); `cur` is the
ambient current time.  Both sides are `ensure_aware`d (hence UTC), so the
Python `>=` on datetimes is a comparison of wall clocks. -/
def is_past (when : Option DT) (now : Option DT := none) (grace_seconds : Int := 0) (cur : Int := 0) : Bool :=
  match when with
  | none => false
  | some w =>
    let now_ := ensure_aware (now.getD (utcnow cur))
    let target := ensure_aware w
    decide ((tdAddSeconds target grace_seconds).wall ≤ now_.wall)

/-- Truncation toward zero of a microsecond count to whole seconds: the Python
`int((...).total_seconds())`. -/
def truncSeconds (d : Int) : Int :=
  if 0 ≤ d then (d.toNat / 1000000 : Nat) else -(((-d).toNat / 1000000 : Nat) : Int)

/-- `humanize_delta(seconds)` from `app/utils/time.py`: clamps negatives to 0,
then renders `"<H>h <M>m"` when hours are nonzero, else `"<M>m"`. -/
def humanize_delta (seconds : Int) : String :=
  let s : Nat := seconds.toNat
  let minutes := s / 60
  let hours := minutes / 60
  let mins := minutes % 60
  if hours ≠ 0 then toString hours ++ "h " ++ toString mins ++ "m"
  else toString mins ++ "m"

/-! ### `app/services/clock.py` -/

def DEFAULT_CHECKIN_MINUTES : Int := 15
def MIN_CHECKIN_MINUTES : Int := 15
def MAX_CHECKIN_MINUTES : Int := 120

/-- `default_checkin_minutes()` from `app/services/clock.py`. -/
def default_checkin_minutes : Int := DEFAULT_CHECKIN_MINUTES

/-- `clamp_checkin_minutes(value)` from `app/services/clock.py`. -/
def clamp_checkin_minutes (value : Int) : Int :=
  coerce_interval_minutes value MIN_CHECKIN_MINUTES MAX_CHECKIN_MINUTES

/-- `schedule_checkin(started_at, minutes)` from `app/services/clock.py`:
clamps the minutes, bases on `started_at or utcnow()` (a datetime is always
truthy in Python, so `none` falls back to the current time `cur`), ensures
awareness and adds the clamped minutes. -/
def schedule_checkin (started_at : Option DT) (minutes : Int) (cur : Int := 0) : DT :=
  let mins := clamp_checkin_minutes minutes
  let base := ensure_aware (started_at.getD (utcnow cur))
  add_minutes base mins

/-- `is_checkin_due(scheduled_at, grace_seconds=0, now=None)` from
`app/services/clock.py`: delegates to `is_past`. -/
def is_checkin_due (scheduled_at : Option DT) (grace_seconds : Int := 0) (now : Option DT := none) (cur : Int := 0) : Bool :=
  is_past scheduled_at now grace_seconds cur

/-- `eta_text(scheduled_at, now=None)` from `app/services/clock.py`. -/
def eta_text (scheduled_at : Option DT) (now : Option DT := none) (cur : Int := 0) : String :=
  match scheduled_at with
  | none => "unscheduled"
  | some sa =>
    let n := ensure_aware (now.getD (utcnow cur))
    let s := ensure_aware sa
    let seconds := truncSeconds (s.wall - n.wall)
    if seconds ≤ 0 then "due"
    else "in " ++ humanize_delta seconds

/-! ### Data model (`app/db/models.py`, the fields this core touches) -/

/-- The owning `Task` row: only `last_worked_on` matters to this core. -/
structure Task where
  last_worked_on : Option DT := none
  deriving Repr, DecidableEq

/-- An `InterventionSession` row.  The mapped start column is
`intervention_started_at`; the repository function `mark_started_and_schedule` writes
a distinct plain attribute `started_at` on the instance (there is no mapped
column of that name), so both are modelled as separate fields. -/
structure InterventionSession where
  created_at : DT
  intervention_started_at : Option DT := none
  started_at : Option DT := none
  scheduled_checkin_at : Option DT := none
  technique_id : Option String := none
  deriving Repr, DecidableEq

/-- A `CheckIn` row. -/
structure CheckIn where
  id : Nat
  outcome : String
  optional_notes : Option String := none
  emotion_after : Option String := none
  created_at : DT
  deriving Repr, DecidableEq

/-- The persistent state a check-in touches: the session, its owning task and
the check-in rows of the session in creation order. -/
structure St where
  session : InterventionSession
  task : Task
  checkins : List CheckIn
  deriving Repr, DecidableEq

/-- The Python exceptions this core can raise: `invalidOutcome` is the
service-level `ValueError("Invalid outcome")`, `keyError` a failed
`SUGGESTIONS[...]` lookup, `typeError` the `await` of a non-awaitable value,
and `attributeError` the read of an instance attribute that was never set. -/
inductive Err where
  | invalidOutcome
  | keyError
  | typeError
  | attributeError
  deriving Repr, DecidableEq

/-! ### `app/repositories/intervention_repo.py` -/

/-- `mark_started_and_schedule(db, session, started_at, minutes=15)`:
sets `session.started_at`, sets `scheduled_checkin_at` to the raw
`started_at + timedelta(minutes=minutes)` (no clamping, no `ensure_aware`),
and returns the new schedule.  Result: (updated session, returned value). -/
def mark_started_and_schedule (s : InterventionSession) (started_at : DT) (minutes : Int := 15) :
    InterventionSession × DT :=
  let sched := tdAddMinutes started_at minutes
  ({ s with started_at := some started_at, scheduled_checkin_at := some sched }, sched)

/-- `set_checkin_minutes(db, session, minutes)`: evaluates
`session.started_at or session.created_at`.  `started_at` is an unmapped
instance attribute, so unless `mark_started_and_schedule` ran on this very
instance the read raises `AttributeError` before anything is mutated; when
the attribute is present it holds a datetime, which is always truthy in
Python, so the `or session.created_at` arm never executes.  On success the
new schedule is the raw `base + timedelta(minutes=minutes)` (no clamping),
stored and returned. -/
def set_checkin_minutes (s : InterventionSession) (minutes : Int) :
    Except Err (InterventionSession × DT) :=
  match s.started_at with
  | none => .error .attributeError
  | some t =>
    let base := t
    let sched := tdAddMinutes base minutes
    .ok ({ s with scheduled_checkin_at := some sched }, sched)

/-! ### `app/repositories/checkin_repo.py` -/

/-- The `SUGGESTIONS` dict; `none` models a missing key (a Python `KeyError`
on lookup). -/
def SUGGESTIONS (outcome : String) : Option String :=
  if outcome = "started_kept_going" then some "Great work getting started."
  else if outcome = "started_stopped" then some "Nice start. Small steps count."
  else if outcome = "did_not_start" then some "That\x27s okay. Want to try again?"
  else if outcome = "still_working" then some "Keep going—no pressure. You’ve got this."
  else none

/-- `create_checkin(db, user_id, session, outcome, notes, emotion_after)` from
the repository: appends a `CheckIn` row (its `id` modelled as the next index,
its `created_at` as the current time `now`), updates the `last_worked_on` field of the task
 to `NOW()` exactly for the three started-like outcomes, and
returns the row together with `SUGGESTIONS[outcome]` (`none` = `KeyError`
pending at the final lookup, after the row was committed). -/
def repo_create_checkin (st : St) (outcome : String) (notes emotion_after : Option String)
    (now : Int) : St × CheckIn × Option String :=
  let ci : CheckIn :=
    { id := st.checkins.length, outcome := outcome, optional_notes := notes,
      emotion_after := emotion_after, created_at := utcnow now }
  let task' :=
    if outcome = "started_kept_going" ∨ outcome = "started_stopped" ∨ outcome = "still_working"
    then { st.task with last_worked_on := some (utcnow now) }
    else st.task
  ({ st with task := task', checkins := st.checkins ++ [ci] }, ci, SUGGESTIONS outcome)

/-! ### `app/services/checkin.py` -/

def VALID_OUTCOMES : List String :=
  ["started_kept_going", "started_stopped", "did_not_start", "still_working"]

/-- The result record `CheckinResult`; `scheduled_next_checkin_at` is modelled
as the datetime itself (the source serialises it with `isoformat()`, an
injective rendering). -/
structure CheckinResult where
  checkin_id : Nat
  suggestion : String
  recommended_next_minutes : Int
  scheduled_next_checkin_at : Option DT
  deriving Repr, DecidableEq

/-- `_recommend_minutes(outcome)`: fixed table with fallback to
`default_checkin_minutes()`, then clamped. -/
def recommend_minutes (outcome : String) : Int :=
  let looked :=
    if outcome = "did_not_start" then 15
    else if outcome = "started_stopped" then 20
    else if outcome = "started_kept_going" then 25
    else if outcome = "still_working" then 30
    else default_checkin_minutes
  clamp_checkin_minutes looked

/-- `_technique_hint(technique_id)`: falsy (absent or empty) ids and unknown
ids yield the empty hint. -/
def technique_hint (technique_id : Option String) : String :=
  match technique_id with
  | none => ""
  | some t =>
    if t = "" then ""
    else if t = "permission_protocol" then "→ Keep permission wide open: it\x27s okay to do this imperfectly."
    else if t = "single_next_action" then "→ Identify the smallest next physical action and do only that."
    else if t = "choice_elimination" then "→ Skip choosing: follow the single next step you defined."
    else if t = "one_minute_entry" then "→ Commit to one minute; you can stop after that if you want."
    else ""

/-- `create_checkin(db, user_id=..., session=..., outcome=..., ...)` from the
service: rejects outcomes outside `VALID_OUTCOMES` before any call.  For a
valid outcome the source then does `await repo_create_checkin(...)`; the
repository function is a plain synchronous `def`, so the call returns a tuple
whose `await` raises `TypeError` on every valid outcome — the
`execute`/`commit` coroutines created inside the call are discarded unawaited,
nothing persists, and the suggestion, recommendation and auto-scheduling
steps below the await are never reached. -/
def create_checkin (st : St) (outcome : String) (optional_notes : Option String := none)
    (emotion_after : Option String := none) (auto_schedule_next : Bool := true)
    (now : Int := 0) : Except Err (St × CheckinResult) :=
  if VALID_OUTCOMES.contains outcome = false then .error .invalidOutcome
  else
    let _ := repo_create_checkin st outcome optional_notes emotion_after now
    .error .typeError

/-! ### Shared helper lemmas -/

theorem ensure_aware_tz (d : DT) : (ensure_aware d).tz = some 0 := by
  unfold ensure_aware; cases d.tz <;> rfl

theorem ensure_aware_wall (d : DT) : (ensure_aware d).wall = d.inst := by
  unfold ensure_aware DT.inst
  cases h : d.tz with
  | none => simp [h]
  | some o => simp [h]; ring

theorem ensure_aware_idem (d : DT) : ensure_aware (ensure_aware d) = ensure_aware d := by
  unfold ensure_aware
  cases d.tz <;> simp

theorem ensure_aware_inst (d : DT) : (ensure_aware d).inst = d.inst := by
  unfold DT.inst
  rw [ensure_aware_wall, ensure_aware_tz]
  simp [DT.inst]

theorem tdAddMinutes_inst (d : DT) (m : Int) :
    (tdAddMinutes d m).inst = d.inst + m * microsPerMin := by
  unfold tdAddMinutes DT.inst; simp; ring

theorem clamp_checkin_minutes_bounds (m : Int) :
    15 ≤ clamp_checkin_minutes m ∧ clamp_checkin_minutes m ≤ 120 := by
  unfold clamp_checkin_minutes coerce_interval_minutes MIN_CHECKIN_MINUTES MAX_CHECKIN_MINUTES
  split_ifs <;> omega

theorem clamp_checkin_minutes_of_bounded (m : Int) (h1 : 15 ≤ m) (h2 : m ≤ 120) :
    clamp_checkin_minutes m = m := by
  unfold clamp_checkin_minutes coerce_interval_minutes MIN_CHECKIN_MINUTES MAX_CHECKIN_MINUTES
  split_ifs <;> omega

theorem clamp_checkin_minutes_idem (m : Int) :
    clamp_checkin_minutes (clamp_checkin_minutes m) = clamp_checkin_minutes m := by
  have h := clamp_checkin_minutes_bounds m
  exact clamp_checkin_minutes_of_bounded _ h.1 h.2

theorem schedule_checkin_eq (b : DT) (m : Int) (cur : Int) :
    schedule_checkin (some b) m cur = tdAddMinutes (ensure_aware b) (clamp_checkin_minutes m) := by
  unfold schedule_checkin add_minutes
  simp [ensure_aware_idem]

theorem schedule_checkin_inst (b : DT) (m : Int) (cur : Int) :
    (schedule_checkin (some b) m cur).inst = b.inst + clamp_checkin_minutes m * microsPerMin := by
  rw [schedule_checkin_eq, tdAddMinutes_inst, ensure_aware_inst]

theorem schedule_checkin_tz (b : DT) (m : Int) (cur : Int) :
    (schedule_checkin (some b) m cur).tz = some 0 := by
  rw [schedule_checkin_eq]
  unfold tdAddMinutes
  simp [ensure_aware_tz]

/-- A sample session created at the UTC epoch, used by concrete witnesses. -/
def sampleSession : InterventionSession := { created_at := ⟨0, some 0⟩ }

/-- A sample fresh state (no check-ins, task never worked on). -/
def sampleSt : St := { session := sampleSession, task := {}, checkins := [] }

/-- The epoch session after its transient `started_at` attribute was set (at
the epoch); used by concrete witnesses. -/
def startedSession : InterventionSession :=
  { created_at := ⟨0, some 0⟩, started_at := some ⟨0, some 0⟩ }

/-! ### C9 -/

/-- C9: `clamp_checkin_minutes` is idempotent, its result always lies in
`[15, 120]`, values below `15` become `15` and values above `120` become
`120`. -/
theorem C9_clamp_idempotent_and_bounded (m : Int) :
    clamp_checkin_minutes (clamp_checkin_minutes m) = clamp_checkin_minutes m ∧
    15 ≤ clamp_checkin_minutes m ∧ clamp_checkin_minutes m ≤ 120 ∧
    (m < 15 → clamp_checkin_minutes m = 15) ∧
    (120 < m → clamp_checkin_minutes m = 120) := by
  refine ⟨clamp_checkin_minutes_idem m, (clamp_checkin_minutes_bounds m).1,
    (clamp_checkin_minutes_bounds m).2, ?_, ?_⟩
  all_goals
    intro h
    unfold clamp_checkin_minutes coerce_interval_minutes MIN_CHECKIN_MINUTES MAX_CHECKIN_MINUTES
    split_ifs <;> omega

/-- C9 witness: the clamp evaluated below, inside and above the band. -/
theorem C9_clamp_witness :
    clamp_checkin_minutes 5 = 15 ∧ clamp_checkin_minutes 500 = 120 :=
  ⟨(C9_clamp_idempotent_and_bounded 5).2.2.2.1 (by decide),
   (C9_clamp_idempotent_and_bounded 500).2.2.2.2 (by decide)⟩

/-! ### C8 -/

/-- C8: for a present basis `b`, `schedule_checkin b m` is UTC-qualified and
equals `ensure_aware b` plus exactly `clamp_checkin_minutes m` minutes, hence
exceeds `ensure_aware b` by between 15 and 120 minutes inclusive; for an
absent basis the current time is used as basis. -/
theorem C8_schedule_checkin_exact (b : DT) (m : Int) (cur : Int) :
    (schedule_checkin (some b) m cur).tz = some 0 ∧
    schedule_checkin (some b) m cur =
      tdAddMinutes (ensure_aware b) (clamp_checkin_minutes m) ∧
    (schedule_checkin (some b) m cur).inst - (ensure_aware b).inst =
      clamp_checkin_minutes m * microsPerMin ∧
    15 * microsPerMin ≤ (schedule_checkin (some b) m cur).inst - (ensure_aware b).inst ∧
    (schedule_checkin (some b) m cur).inst - (ensure_aware b).inst ≤ 120 * microsPerMin ∧
    schedule_checkin none m cur =
      tdAddMinutes (ensure_aware (utcnow cur)) (clamp_checkin_minutes m) := by
  have hinst := schedule_checkin_inst b m cur
  have hb := clamp_checkin_minutes_bounds m
  refine ⟨schedule_checkin_tz b m cur, schedule_checkin_eq b m cur, ?_, ?_, ?_, ?_⟩
  · rw [hinst, ensure_aware_inst]; ring
  · rw [hinst, ensure_aware_inst]
    have : (0:Int) < microsPerMin := by decide
    nlinarith [hb.1, hb.2]
  · rw [hinst, ensure_aware_inst]
    have : (0:Int) < microsPerMin := by decide
    nlinarith [hb.1, hb.2]
  · unfold schedule_checkin add_minutes
    simp [ensure_aware_idem]

/-! ### C1 -/

/-- C1 counterexample: `set_checkin_minutes` does not clamp, and the
`else created_at` arm of the claim is a crash in the code.  On a started
session, `set_checkin_minutes(session, 500)` stores and returns basis + 500
minutes, not the clamped basis + 120 minutes; on an unstarted session the
operation raises `AttributeError` (reading the absent unmapped `started_at`
attribute) instead of computing `created_at` plus anything. -/
theorem C1_counterexample :
    set_checkin_minutes startedSession 500 =
      .ok ({ startedSession with scheduled_checkin_at := some (tdAddMinutes ⟨0, some 0⟩ 500) },
        tdAddMinutes ⟨0, some 0⟩ 500) ∧
    tdAddMinutes (⟨0, some 0⟩ : DT) 500 ≠ tdAddMinutes ⟨0, some 0⟩ 120 ∧
    set_checkin_minutes sampleSession 500 = .error .attributeError := by
  exact ⟨rfl, by decide, rfl⟩

/-- C1 amended: `set_checkin_minutes(session, minutes)` requires the transient
`started_at` attribute (set only by a prior `mark_started_and_schedule` on the
same instance): when it is absent the read raises `AttributeError` and nothing
is mutated; when it is present the new schedule is `started_at` plus the given
minutes, unclamped, stored on the session and returned (the
`or session.created_at` fallback is dead code, since a present `started_at`
is a datetime and datetimes are always truthy). -/
theorem C1_set_checkin_minutes_unclamped (s : InterventionSession) (minutes : Int) :
    (s.started_at = none → set_checkin_minutes s minutes = .error .attributeError) ∧
    ∀ t, s.started_at = some t →
      set_checkin_minutes s minutes =
        .ok ({ s with scheduled_checkin_at := some (tdAddMinutes t minutes) },
          tdAddMinutes t minutes) ∧
      (tdAddMinutes t minutes).inst = t.inst + minutes * microsPerMin := by
  constructor
  · intro h
    unfold set_checkin_minutes
    rw [h]
  · intro t h
    refine ⟨?_, tdAddMinutes_inst t minutes⟩
    unfold set_checkin_minutes
    rw [h]

/-- C1 witness: the amended statement evaluated on the unstarted epoch session
(error path) and on the started epoch session at `minutes = 500`. -/
theorem C1_set_checkin_minutes_witness :
    set_checkin_minutes sampleSession 500 = .error .attributeError ∧
    set_checkin_minutes startedSession 500 =
      .ok ({ startedSession with scheduled_checkin_at := some (tdAddMinutes ⟨0, some 0⟩ 500) },
        tdAddMinutes ⟨0, some 0⟩ 500) :=
  ⟨(C1_set_checkin_minutes_unclamped sampleSession 500).1 rfl,
   ((C1_set_checkin_minutes_unclamped startedSession 500).2 ⟨0, some 0⟩ rfl).1⟩

/-! ### C4 -/

/-- C4 counterexample: `mark_started_and_schedule` does not route through
`schedule_checkin`.  Starting the epoch session at the UTC epoch with
`minutes = 500` schedules basis + 500 minutes, while
`schedule_checkin(started_at, 500)` would clamp to basis + 120 minutes. -/
theorem C4_counterexample :
    (mark_started_and_schedule sampleSession ⟨0, some 0⟩ 500).2 ≠
      schedule_checkin (some ⟨0, some 0⟩) 500 0 ∧
    (mark_started_and_schedule sampleSession ⟨0, some 0⟩ 500).2 =
      tdAddMinutes ⟨0, some 0⟩ 500 := by
  refine ⟨?_, rfl⟩; decide

/-- C4 amended: `mark_started_and_schedule(session, started_at, minutes)` sets
`started_at` and stores and returns the raw `started_at + minutes` (no
clamping, no timezone normalization); this coincides with
`schedule_checkin(started_at, minutes)` as an instant exactly when `minutes`
already lies in `[15, 120]`. -/
theorem C4_mark_started_raw_schedule (s : InterventionSession) (t : DT) (m : Int) (cur : Int) :
    (mark_started_and_schedule s t m).1.started_at = some t ∧
    (mark_started_and_schedule s t m).1.scheduled_checkin_at = some (tdAddMinutes t m) ∧
    (mark_started_and_schedule s t m).2 = tdAddMinutes t m ∧
    (mark_started_and_schedule s t m).1.created_at = s.created_at ∧
    (mark_started_and_schedule s t m).1.intervention_started_at = s.intervention_started_at ∧
    (15 ≤ m → m ≤ 120 →
      (tdAddMinutes t m).inst = (schedule_checkin (some t) m cur).inst) := by
  refine ⟨rfl, rfl, rfl, rfl, rfl, fun h1 h2 => ?_⟩
  rw [tdAddMinutes_inst, schedule_checkin_inst, clamp_checkin_minutes_of_bounded m h1 h2]

/-- C4 witness: the amended statement evaluated at the epoch session, start
time epoch + 1 minute, `minutes = 30`. -/
theorem C4_mark_started_witness :
    (mark_started_and_schedule sampleSession ⟨60000000, some 0⟩ 30).1.started_at =
      some ⟨60000000, some 0⟩ ∧
    (tdAddMinutes (⟨60000000, some 0⟩ : DT) 30).inst =
      (schedule_checkin (some ⟨60000000, some 0⟩) 30 0).inst :=
  ⟨(C4_mark_started_raw_schedule sampleSession ⟨60000000, some 0⟩ 30 0).1,
   (C4_mark_started_raw_schedule sampleSession ⟨60000000, some 0⟩ 30 0).2.2.2.2.2
     (by decide) (by decide)⟩

/-! ### Helpers for the due / ETA claims -/

theorem eta_text_some (sa n : DT) (cur : Int) :
    eta_text (some sa) (some n) cur =
      if truncSeconds (sa.inst - n.inst) ≤ 0 then "due"
      else "in " ++ humanize_delta (truncSeconds (sa.inst - n.inst)) := by
  show (if truncSeconds ((ensure_aware sa).wall - (ensure_aware n).wall) ≤ 0 then "due"
      else "in " ++ humanize_delta (truncSeconds ((ensure_aware sa).wall - (ensure_aware n).wall))) = _
  rw [ensure_aware_wall sa, ensure_aware_wall n]

theorem is_checkin_due_some (sa n : DT) (g cur : Int) :
    is_checkin_due (some sa) g (some n) cur = decide (sa.inst + g * microsPerSec ≤ n.inst) := by
  show decide ((ensure_aware sa).wall + g * microsPerSec ≤ (ensure_aware n).wall) = _
  rw [ensure_aware_wall sa, ensure_aware_wall n]

theorem truncSeconds_eq_zero (d : Int) (h1 : 0 ≤ d) (h2 : d < 1000000) :
    truncSeconds d = 0 := by
  unfold truncSeconds
  rw [if_pos h1]
  have hlt : d.toNat < 1000000 := by omega
  simp [Nat.div_eq_of_lt hlt]

theorem truncSeconds_nonpos (d : Int) (h : d ≤ 0) : truncSeconds d ≤ 0 := by
  unfold truncSeconds
  split_ifs with h0
  · have : d = 0 := le_antisymm h h0
    simp [this]
  · omega

theorem truncSeconds_of_nonneg (d : Int) (h : 0 ≤ d) :
    truncSeconds d = ((d.toNat / 1000000 : Nat) : Int) := by
  unfold truncSeconds
  rw [if_pos h]

theorem humanize_delta_small (sec : Int) (h2 : sec.toNat < 60) :
    humanize_delta sec = "0m" := by
  show (if (sec.toNat / 60 / 60) ≠ 0 then
      toString (sec.toNat / 60 / 60) ++ "h " ++ toString (sec.toNat / 60 % 60) ++ "m"
    else toString (sec.toNat / 60 % 60) ++ "m") = "0m"
  rw [Nat.div_eq_of_lt h2]
  norm_num
  rfl

theorem in_append_ne_due (s : String) : "in " ++ s ≠ "due" := by
  intro h
  have h2 := congrArg String.data h
  rw [String.data_append] at h2
  have h3 : "in ".data = ['i', 'n', ' '] := rfl
  rw [h3] at h2
  simp at h2

/-! ### C10 -/

/-- C10: `eta_text` truncates the gap toward zero to whole seconds: a schedule
strictly in the future by less than one second already reads `"due"`, and a
gap of 1 to 59 whole seconds reads `"in 0m"`. -/
theorem C10_eta_truncation (sa n : DT) (cur : Int) :
    (0 < sa.inst - n.inst → sa.inst - n.inst < microsPerSec →
      eta_text (some sa) (some n) cur = "due") ∧
    (microsPerSec ≤ sa.inst - n.inst → sa.inst - n.inst < 60 * microsPerSec →
      eta_text (some sa) (some n) cur = "in 0m") := by
  constructor
  · intro h1 h2
    rw [eta_text_some]
    rw [truncSeconds_eq_zero (sa.inst - n.inst) (by omega)
      (by simpa [microsPerSec] using h2)]
    simp
  · intro h1 h2
    rw [eta_text_some]
    rw [truncSeconds_of_nonneg (sa.inst - n.inst) (by simp [microsPerSec] at h1; omega)]
    have hμ1 : (1000000 : Int) ≤ sa.inst - n.inst := by simpa [microsPerSec] using h1
    have hμ2 : sa.inst - n.inst < 60000000 := by
      have := h2; simp [microsPerSec] at this; omega
    have hk1 : 1 ≤ (sa.inst - n.inst).toNat / 1000000 :=
      (Nat.le_div_iff_mul_le (by norm_num)).2 (by omega)
    have hk2 : (sa.inst - n.inst).toNat / 1000000 < 60 :=
      (Nat.div_lt_iff_lt_mul (by norm_num)).2 (by omega)
    rw [if_neg (by omega)]
    rw [humanize_delta_small _ (by omega)]
    rfl

/-- C10 witness: a schedule 0.5 s in the future reads `"due"`; one 30 s in the
future reads `"in 0m"`. -/
theorem C10_eta_truncation_witness :
    eta_text (some ⟨500000, some 0⟩) (some ⟨0, some 0⟩) 0 = "due" ∧
    eta_text (some ⟨30000000, some 0⟩) (some ⟨0, some 0⟩) 0 = "in 0m" :=
  ⟨(C10_eta_truncation ⟨500000, some 0⟩ ⟨0, some 0⟩ 0).1 (by decide) (by decide),
   (C10_eta_truncation ⟨30000000, some 0⟩ ⟨0, some 0⟩ 0).2 (by decide) (by decide)⟩

/-! ### C7 -/

/-- C7 counterexample: half a second before the scheduled time, `eta_text`
already reads `"due"` while `is_checkin_due` is still false, so the claimed
equivalence fails for sub-second gaps. -/
theorem C7_counterexample :
    eta_text (some ⟨500000, some 0⟩) (some ⟨0, some 0⟩) 0 = "due" ∧
    is_checkin_due (some ⟨500000, some 0⟩) 0 (some ⟨0, some 0⟩) 0 = false ∧
    ¬ (is_checkin_due (some ⟨500000, some 0⟩) 0 (some ⟨0, some 0⟩) 0 = true ↔
        eta_text (some ⟨500000, some 0⟩) (some ⟨0, some 0⟩) 0 = "due") := by
  refine ⟨by decide, by decide, by decide⟩

/-- C7 amended: the equivalence
`is_checkin_due(scheduled_at, now=now) = (eta_text(scheduled_at, now=now) = "due")`
holds whenever the gap between `scheduled_at` and `now` is a whole number of
seconds (in particular for timestamps of whole-second precision); for an
absent `scheduled_at`, `eta_text` returns `"unscheduled"` and `is_checkin_due`
returns false unconditionally. -/
theorem C7_due_eta_consistency (sa n : DT) (g cur : Int) :
    (microsPerSec ∣ sa.inst - n.inst →
      (is_checkin_due (some sa) 0 (some n) cur = true ↔
        eta_text (some sa) (some n) cur = "due")) ∧
    eta_text none (some n) cur = "unscheduled" ∧
    is_checkin_due none g (some n) cur = false := by
  refine ⟨?_, rfl, rfl⟩
  rintro ⟨k, hk⟩
  rw [is_checkin_due_some, eta_text_some]
  rcases le_or_lt (sa.inst - n.inst) 0 with hle | hgt
  · rw [if_pos (truncSeconds_nonpos _ hle)]
    simp
    omega
  · have hk1 : 1 ≤ k := by
      by_contra hc
      push_neg at hc
      have : sa.inst - n.inst ≤ 0 := by
        rw [hk]
        have : k ≤ 0 := by omega
        simp [microsPerSec]
        nlinarith
      omega
    have hge : (1000000 : Int) ≤ sa.inst - n.inst := by
      rw [hk]
      simp [microsPerSec]
      nlinarith
    rw [truncSeconds_of_nonneg _ (by omega)]
    rw [if_neg (by
      have : 1 ≤ (sa.inst - n.inst).toNat / 1000000 :=
        (Nat.le_div_iff_mul_le (by norm_num)).2 (by omega)
      omega)]
    simp only [decide_eq_true_eq]
    constructor
    · intro h; omega
    · intro h
      exact absurd h (in_append_ne_due _)

/-- C7 witness: the amended equivalence at a whole-second gap (30 s), plus the
absent-schedule clauses. -/
theorem C7_due_eta_consistency_witness :
    (is_checkin_due (some ⟨30000000, some 0⟩) 0 (some ⟨0, some 0⟩) 0 = true ↔
      eta_text (some ⟨30000000, some 0⟩) (some ⟨0, some 0⟩) 0 = "due") ∧
    eta_text none (some ⟨0, some 0⟩) 0 = "unscheduled" :=
  ⟨(C7_due_eta_consistency ⟨30000000, some 0⟩ ⟨0, some 0⟩ 0 0).1 (by decide),
   (C7_due_eta_consistency ⟨30000000, some 0⟩ ⟨0, some 0⟩ 0 0).2.1⟩

/-! ### Helpers for the check-in orchestration claims -/

theorem mem_VALID_OUTCOMES_cases {o : String} (h : o ∈ VALID_OUTCOMES) :
    o = "started_kept_going" ∨ o = "started_stopped" ∨ o = "did_not_start" ∨
      o = "still_working" := by
  simpa [VALID_OUTCOMES] using h

theorem recommend_minutes_bounds (o : String) :
    15 ≤ recommend_minutes o ∧ recommend_minutes o ≤ 120 := by
  unfold recommend_minutes
  exact clamp_checkin_minutes_bounds _

/-- The service never returns a result: even a valid outcome runs into the
`TypeError` of awaiting the tuple the synchronous repository function
returns. -/
theorem create_checkin_never_ok (st : St) (o : String) (notes emo : Option String)
    (auto : Bool) (now : Int) (p : St × CheckinResult) :
    create_checkin st o notes emo auto now ≠ .ok p := by
  unfold create_checkin
  split <;> simp

theorem create_checkin_of_valid (st : St) (o : String) (notes emo : Option String)
    (auto : Bool) (now : Int) (h : o ∈ VALID_OUTCOMES) :
    create_checkin st o notes emo auto now = .error .typeError := by
  rcases mem_VALID_OUTCOMES_cases h with h4 | h4 | h4 | h4 <;> subst h4 <;> rfl

/-! ### C5 -/

/-- C5: the service `create_checkin` fails with the invalid-outcome error
(`ValueError`, the error the spec names `InvalidOutcome`) exactly when the
outcome is outside `VALID_OUTCOMES`; the guard is the first statement of the
function, before any persistence call, so on that failure nothing is
persisted, the task is untouched and the schedule is unchanged (the error
value carries no mutated state), and conversely any successful run would have
a valid outcome. -/
theorem C5_invalid_outcome_iff (st : St) (outcome : String) (notes emo : Option String)
    (auto : Bool) (now : Int) :
    (create_checkin st outcome notes emo auto now = .error .invalidOutcome ↔
      outcome ∉ VALID_OUTCOMES) ∧
    ∀ st' r, create_checkin st outcome notes emo auto now = .ok (st', r) →
      outcome ∈ VALID_OUTCOMES := by
  have hdir : outcome ∉ VALID_OUTCOMES →
      create_checkin st outcome notes emo auto now = .error .invalidOutcome := by
    intro hnot
    have hc : VALID_OUTCOMES.contains outcome = false := by
      cases hc : VALID_OUTCOMES.contains outcome
      · rfl
      · exact absurd (by simpa using hc) hnot
    unfold create_checkin
    rw [if_pos hc]
  refine ⟨⟨?_, hdir⟩, ?_⟩
  · intro he hmem
    rw [create_checkin_of_valid st outcome notes emo auto now hmem] at he
    injection he with he2
    exact absurd he2 (by decide)
  · intro st' r h
    exact absurd h (create_checkin_never_ok st outcome notes emo auto now (st', r))

/-- C5 witness: `"bogus"` is rejected with the invalid-outcome error on the
sample state. -/
theorem C5_invalid_outcome_witness :
    create_checkin sampleSt "bogus" none none true 0 = .error .invalidOutcome :=
  (C5_invalid_outcome_iff sampleSt "bogus" none none true 0).1.mpr (by decide)

/-! ### C6 -/

/-- C6: in the repository function `create_checkin` (the function that
persists a check-in row; the service and route layers delegate to it), an
outcome of `did_not_start` leaves the task field `last_worked_on` unchanged,
while each of the three started-like outcomes always sets it to the creation
time of the new check-in row. -/
theorem C6_task_touch (st : St) (notes emo : Option String) (now : Int) :
    ((repo_create_checkin st "did_not_start" notes emo now).1.task.last_worked_on =
      st.task.last_worked_on) ∧
    ∀ o, (o = "started_kept_going" ∨ o = "started_stopped" ∨ o = "still_working") →
      ∃ ci : CheckIn,
        (repo_create_checkin st o notes emo now).1.checkins = st.checkins ++ [ci] ∧
        ci.created_at = utcnow now ∧
        (repo_create_checkin st o notes emo now).1.task.last_worked_on =
          some ci.created_at := by
  refine ⟨rfl, ?_⟩
  rintro o (ho | ho | ho) <;> subst ho <;> exact ⟨_, rfl, rfl, rfl⟩

/-- C6 witness: on the sample state, a `"started_stopped"` check-in row at the
epoch stamps the task with the creation time of that row. -/
theorem C6_task_touch_witness :
    ∃ ci : CheckIn,
      (repo_create_checkin sampleSt "started_stopped" none none 0).1.checkins =
        sampleSt.checkins ++ [ci] ∧
      ci.created_at = utcnow 0 ∧
      (repo_create_checkin sampleSt "started_stopped" none none 0).1.task.last_worked_on =
        some ci.created_at :=
  (C6_task_touch sampleSt none none 0).2 "started_stopped" (by decide)

/-! ### C3 -/

/-- C3: the recommendation-table policy helper is exactly the claimed table
(15/20/25/30, clamped, always in `[15, 120]`), but the service `create_checkin`
can never deliver it: on every valid outcome the source awaits the tuple
returned by the synchronous repository function, raising `TypeError` before
any recommendation is returned or any schedule stored — while its own test
suite asserts the successful behaviour, so the `await` of a plain function is
a slip in the code. -/
theorem C3_create_checkin_type_error :
    recommend_minutes "did_not_start" = 15 ∧
    recommend_minutes "started_stopped" = 20 ∧
    recommend_minutes "started_kept_going" = 25 ∧
    recommend_minutes "still_working" = 30 ∧
    (∀ o, 15 ≤ recommend_minutes o ∧ recommend_minutes o ≤ 120) ∧
    create_checkin sampleSt "started_kept_going" none none true 0 =
      .error .typeError := by
  exact ⟨by decide, by decide, by decide, by decide, recommend_minutes_bounds, rfl⟩

/-! ### C2 -/

/-- Inverts a successful `set_checkin_minutes`: the transient `started_at`
attribute must have been present, and the schedule is the raw addition. -/
theorem set_checkin_minutes_ok_inv {s s' : InterventionSession} {m : Int} {d : DT}
    (h : set_checkin_minutes s m = .ok (s', d)) :
    ∃ t, s.started_at = some t ∧ d = tdAddMinutes t m ∧
      s' = { s with scheduled_checkin_at := some (tdAddMinutes t m) } := by
  unfold set_checkin_minutes at h
  cases hs : s.started_at with
  | none =>
      rw [hs] at h
      exact absurd h (by simp)
  | some t =>
      rw [hs] at h
      simp only [Except.ok.injEq, Prod.mk.injEq] at h
      exact ⟨t, rfl, h.2.symm, h.1.symm⟩

/-- States reachable under the lifecycle operations with arbitrary integer
minute arguments: a fresh session, `mark_started_and_schedule`,
`set_checkin_minutes` and the service `create_checkin`.  The latter two are
fallible: their transitions fire only on a successful (`.ok`) call, since a
raised exception leaves the state unmutated. -/
inductive Reachable : St → Prop where
  | init (created : DT) (tech : Option String) (task : Task) :
      Reachable { session := { created_at := created, technique_id := tech },
                  task := task, checkins := [] }
  | start (st : St) (t : DT) (m : Int) : Reachable st →
      Reachable { st with session := (mark_started_and_schedule st.session t m).1 }
  | setMinutes (st : St) (m : Int) (s' : InterventionSession) (d : DT) : Reachable st →
      set_checkin_minutes st.session m = .ok (s', d) →
      Reachable { st with session := s' }
  | checkin (st st' : St) (r : CheckinResult) (o : String) (notes emo : Option String)
      (auto : Bool) (now : Int) : Reachable st →
      create_checkin st o notes emo auto now = .ok (st', r) → Reachable st'

/-- The epoch state after `start` with `minutes = 500`. -/
def cexSt : St :=
  { sampleSt with session := (mark_started_and_schedule sampleSt.session ⟨0, some 0⟩ 500).1 }

/-- C2 counterexample: starting the fresh epoch session with `minutes = 500`
(the start operation does not clamp) reaches a state whose schedule is 500
minutes past its basis `started_at`, which no offset in `[15, 120]` can
explain — so the claimed invariant fails on reachable states. -/
theorem C2_counterexample :
    Reachable cexSt ∧
    cexSt.session.scheduled_checkin_at = some (tdAddMinutes ⟨0, some 0⟩ 500) ∧
    ¬ ∃ m : Int, 15 ≤ m ∧ m ≤ 120 ∧
        (tdAddMinutes (⟨0, some 0⟩ : DT) 500).inst =
          (cexSt.session.started_at.getD cexSt.session.created_at).inst + m * microsPerMin := by
  refine ⟨Reachable.start sampleSt ⟨0, some 0⟩ 500 (Reachable.init ⟨0, some 0⟩ none {}),
    rfl, ?_⟩
  rintro ⟨m, h1, h2, h3⟩
  have h4 : (500 : Int) * 60000000 = m * 60000000 := by
    simpa [cexSt, sampleSt, sampleSession, mark_started_and_schedule, tdAddMinutes, DT.inst,
      microsPerMin] using h3
  omega

/-- States reachable when the minute arguments handed to the start and
manual-override operations stay in the policy band `[15, 120]` (the HTTP
layer guarantees this: the start route always passes 15 and the
`checkin-time` route rejects out-of-range values instead of clamping). -/
inductive ReachableClamped : St → Prop where
  | init (created : DT) (tech : Option String) (task : Task) :
      ReachableClamped { session := { created_at := created, technique_id := tech },
                         task := task, checkins := [] }
  | start (st : St) (t : DT) (m : Int) (hm1 : 15 ≤ m) (hm2 : m ≤ 120) : ReachableClamped st →
      ReachableClamped { st with session := (mark_started_and_schedule st.session t m).1 }
  | setMinutes (st : St) (m : Int) (s' : InterventionSession) (d : DT)
      (hm1 : 15 ≤ m) (hm2 : m ≤ 120) : ReachableClamped st →
      set_checkin_minutes st.session m = .ok (s', d) →
      ReachableClamped { st with session := s' }
  | checkin (st st' : St) (r : CheckinResult) (o : String) (notes emo : Option String)
      (auto : Bool) (now : Int) : ReachableClamped st →
      create_checkin st o notes emo auto now = .ok (st', r) → ReachableClamped st'

/-- C2 amended: with the minute arguments of start and `set_checkin_minutes`
kept in `[15, 120]`, every reachable schedule lies exactly `m ∈ [15, 120]`
minutes past the transient `started_at` of the session, which is then
necessarily present — `set_checkin_minutes` raises `AttributeError` without
mutating when the session was never started (there is no `created_at`
fallback in any executed path), and the service check-in never completes (its
`await` of the synchronous repository function raises `TypeError`), so start
and the manual override are the only schedule writers. -/
theorem C2_schedule_invariant_clamped (st : St) (h : ReachableClamped st) :
    ∀ u, st.session.scheduled_checkin_at = some u →
      ∃ t m, st.session.started_at = some t ∧ 15 ≤ m ∧ m ≤ 120 ∧
        u.inst = t.inst + m * microsPerMin := by
  induction h with
  | init created tech task =>
      intro u hu
      exact absurd hu (by simp)
  | start st0 t0 m hm1 hm2 _ _ =>
      intro u hu
      have hu' : tdAddMinutes t0 m = u := by
        simpa [mark_started_and_schedule] using hu
      subst hu'
      exact ⟨t0, m, rfl, hm1, hm2, tdAddMinutes_inst t0 m⟩
  | setMinutes st0 m s' d hm1 hm2 _ hok _ =>
      intro u hu
      obtain ⟨t, hts, hd, hs'⟩ := set_checkin_minutes_ok_inv hok
      subst hs'
      have hu' : tdAddMinutes t m = u := by simpa using hu
      subst hu'
      exact ⟨t, m, hts, hm1, hm2, tdAddMinutes_inst t m⟩
  | checkin st0 st' r o notes emo auto now _ hok _ =>
      exact absurd hok (create_checkin_never_ok st0 o notes emo auto now (st', r))

/-- The epoch state after a clamped 30-minute start. -/
def clampedSt : St :=
  { sampleSt with session := (mark_started_and_schedule sampleSt.session ⟨0, some 0⟩ 30).1 }

/-- C2 witness: the amended invariant evaluated on the concrete reachable
state obtained by starting the epoch session with a 30-minute window. -/
theorem C2_schedule_invariant_witness :
    ∃ t m, clampedSt.session.started_at = some t ∧ 15 ≤ m ∧ m ≤ 120 ∧
      (tdAddMinutes (⟨0, some 0⟩ : DT) 30).inst = t.inst + m * microsPerMin :=
  C2_schedule_invariant_clamped clampedSt
    (ReachableClamped.start sampleSt ⟨0, some 0⟩ 30 (by decide) (by decide)
      (ReachableClamped.init ⟨0, some 0⟩ none {}))
    (tdAddMinutes ⟨0, some 0⟩ 30) rfl

end EaseMe
